import Mathlib

/-!
Shallow embedding of `src/main.py` of ozagord/atm_display.

The embedded pieces are:
* `download_gtfs_data` — download and in-place extraction of the GTFS bundle;
* `filter_stop_times_file` — the grep-based pre-reduction of `stop_times.txt`;
* `parse_gtfs_time` — GTFS arrival-offset parsing (seconds since midnight,
  possibly above 86400, or an "H:M:S" string);
* `get_next_arrivals` — the arrival query engine (per-row parse, past/horizon
  filtering, label resolution, grouping by (line, destination), per-group cap
  of 2, final sort by minutes);
* `should_update_gtfs` — the weekly refresh decision.

Instants are modelled as integer seconds on an absolute timeline; a calendar
date is the integer day number `t / 86400`, so midnight of the date of `now`
is `(now / 86400) * 86400`.  Python's `divmod` on a positive modulus is floor
division, which coincides with Lean's euclidean `/` and `%` on `Int`.
Pandas cells are modelled as `Option String` (`none` = NaN / missing column);
Python's `sort(key=...)` is stable, and a stable sort by a key is unique, so
Mathlib's `List.insertionSort` computes exactly the list Python produces.
-/

namespace AtmDisplay

/-- Abstraction of the body of the downloaded archive: either a well-formed
zip holding a list of files, or malformed bytes (ZipFile raises). -/
inductive Content where
  | valid (files : List String)
  | malformed
deriving DecidableEq

/-- Error taxonomy of the refresh stage. -/
inductive DlError where
  | downloadError
  | corruptArchiveError
deriving DecidableEq

/-- Model of `download_gtfs_data` (src/main.py lines 61-79) as a transition on
the on-disk cache.  `cache` is the GTFS directory: `none` when absent, `some
files` when present.  `dl` is the network outcome: `none` models
`requests.get`/`raise_for_status` raising (before the cache is touched);
`some c` is a completed download of body `c`.  The code then removes the
existing directory (`shutil.rmtree`), recreates it, and only afterwards opens
the zip: a malformed archive raises out of `zipfile.ZipFile` leaving the
freshly emptied directory behind, while a valid one is extracted into it.
Returns the resulting cache and the error, if any. -/
def download_gtfs_data (cache : Option (List String)) (dl : Option Content) :
    Option (List String) × Option DlError :=
  match dl with
  | none => (cache, some .downloadError)
  | some c =>
    match c with
    | .malformed => (some [], some .corruptArchiveError)
    | .valid files => (some files, none)

/-- Model of `filter_stop_times_file` (src/main.py lines 82-160).  `source` is
the content of `stop_times.txt` as a list of raw lines (`none` if the file
does not exist).  `lineMatch` models the grep pattern built from `target_ids`:
whether a given line matches it.  The code first counts matching lines (`grep -c` over
the whole file); a count of zero returns the original file untouched.
Otherwise it writes the header line (the first line, written only when
non-empty, i.e. when the file has a first line), appends every matching line,
and moves the result over the original. -/
def filter_stop_times_file (source : Option (List String)) (target_ids : List String)
    (lineMatch : String → Bool) : Option (List String) :=
  match source with
  | none => none
  | some content =>
    if target_ids.isEmpty then some content
    else
      let match_count := (content.filter lineMatch).length
      if match_count = 0 then some content
      else
        let headerPart := match content.head? with
          | some h => [h]
          | none => []
        some (headerPart ++ content.filter lineMatch)

/-- A GTFS `arrival_time` cell as the code sees it: a numeric value
(int/float seconds since midnight of the service day), a string that splits
into three integers on a colon, or anything whose parse raises
(ValueError/TypeError). -/
inductive GtfsTime where
  | num (n : Int)
  | hms (h m s : Int)
  | malformed
deriving DecidableEq

/-- Total seconds extracted from an `arrival_time` cell, or `none` when the
code's try/except catches the parse failure. -/
def gtfsTotalSeconds : GtfsTime → Option Int
  | .num n => some n
  | .hms h m s => some (h * 3600 + m * 60 + s)
  | .malformed => none

/-- Model of `parse_gtfs_time` (src/main.py lines 193-209).  `base_date` is a
day number; the result is the absolute instant
`midnight(base_date) + days_offset·86400 + remaining_seconds` where
`(days_offset, remaining_seconds) = divmod(total_seconds, 86400)`. -/
def parse_gtfs_time (t : GtfsTime) (base_date : Int) : Option Int :=
  match gtfsTotalSeconds t with
  | none => none
  | some total =>
    let days_offset := total / 86400
    let remaining_seconds := total % 86400
    some (base_date * 86400 + days_offset * 86400 + remaining_seconds)

/-- One row of the pre-joined stop-times dataframe, with the columns
`get_next_arrivals` reads.  `Option String` cells model NaN/missing as
`none`. -/
structure Row where
  stop_id : String
  arrival_time : GtfsTime
  stop_headsign : Option String
  trip_headsign : Option String
  route_long_name : Option String
  route_short_name : Option String
  route_id : Option String
deriving DecidableEq

/-- One record of the query output (the dict built at src/main.py
lines 293-299). -/
structure ArrivalEntry where
  line : String
  direzione : String
  stop_id : String
  destination : String
  minutes : Int
deriving DecidableEq

/-- Model of the local helper `get_str`: NaN (`none`) and falsy values (the
empty string) give the default `""`. -/
def get_str : Option String → String
  | none => ""
  | some s => s

/-- Python's `a or b` on strings: `b` when `a` is empty (falsy), else `a`. -/
def pyOr (a b : String) : String := if a = "" then b else a

/-- The per-row body of the loop in `get_next_arrivals` (src/main.py
lines 271-299): parse the arrival offset against today's date, skip
unparseable rows, rows strictly in the past, and rows whose floored minute
count exceeds 120; otherwise resolve the labels and build the record.
`stop_map` maps a stop id to its optional `direzione` field. -/
def rowEntry (stop_map : List (String × Option String)) (now : Int) (r : Row) :
    Option ArrivalEntry :=
  match parse_gtfs_time r.arrival_time (now / 86400) with
  | none => none
  | some arrival_dt =>
    if arrival_dt < now then none
    else
      let minutes := (arrival_dt - now) / 60
      if 120 < minutes then none
      else
        let destination := pyOr (get_str r.stop_headsign) (pyOr (get_str r.trip_headsign)
          (pyOr (get_str r.route_long_name) ("Destinazione non disponibile")))
        let line_label := pyOr (get_str r.route_short_name)
          (pyOr (get_str r.route_id) ("Linea"))
        let direzione := match stop_map.lookup r.stop_id with
          | some (some d) => d
          | some none => destination
          | none => destination
        some { line := line_label, direzione := direzione, stop_id := r.stop_id,
               destination := destination, minutes := minutes }

/-- The grouping key `(line label, destination label)`. -/
def entryKey (e : ArrivalEntry) : String × String := (e.line, e.destination)

/-- Appending an entry to the `arrivals_by_line` dict: Python dicts keep
insertion order, so the dict is an association list where a new key goes to
the end and an existing key appends to its bucket. -/
def insertGroup (gs : List ((String × String) × List ArrivalEntry)) (e : ArrivalEntry) :
    List ((String × String) × List ArrivalEntry) :=
  match gs with
  | [] => [(entryKey e, [e])]
  | (k, es) :: rest =>
    if k = entryKey e then (k, es ++ [e]) :: rest
    else (k, es) :: insertGroup rest e

/-- The relation `list.sort(key=lambda a: a["minutes"])` sorts by. -/
def minRel (a b : ArrivalEntry) : Prop := a.minutes ≤ b.minutes

instance : DecidableRel minRel :=
  fun a b => inferInstanceAs (Decidable (a.minutes ≤ b.minutes))

instance : IsTotal ArrivalEntry minRel :=
  ⟨fun a b => Int.le_total a.minutes b.minutes⟩

instance : IsTrans ArrivalEntry minRel :=
  ⟨fun _ _ _ h1 h2 => le_trans h1 h2⟩

/-- Python's `list.sort(key=lambda a: a["minutes"])` is a stable ascending
sort; a stable sort by a fixed key is unique, so insertion sort computes the
same list. -/
def sortByMinutes (l : List ArrivalEntry) : List ArrivalEntry :=
  l.insertionSort minRel

/-- The tail of `get_next_arrivals` after the row loop (src/main.py
lines 307-314): group the surviving entries into the insertion-ordered dict,
sort each bucket by minutes and keep its first 2, flatten in dict order, and
sort the flattened list by minutes. -/
def processEntries (entries : List ArrivalEntry) : List ArrivalEntry :=
  sortByMinutes
    ((entries.foldl insertGroup []).flatMap (fun g => (sortByMinutes g.2).take 2))

/-- Model of `get_next_arrivals` (src/main.py lines 257-314): early return on
an empty dataframe; per-row processing (`rowEntry`) of each row in order,
then `processEntries` on the surviving entries.  `now` is passed explicitly
(the code samples `datetime.now()` once at the top of the call). -/
def get_next_arrivals (stop_times_df : List Row)
    (stop_map : List (String × Option String)) (now : Int) : List ArrivalEntry :=
  if stop_times_df.isEmpty then []
  else processEntries (stop_times_df.filterMap (rowEntry stop_map now))

/-- The fields of `datetime.now()` read by `should_update_gtfs`: Python's
`weekday()` (Monday = 0, Friday = 4), `hour`, `minute`, and `date()`
(modelled as an integer day number). -/
structure Now where
  weekday : Nat
  hour : Nat
  minute : Nat
  date : Int
deriving DecidableEq

/-- Model of `should_update_gtfs` (src/main.py lines 479-489):
Friday ∧ (hour = 23 ∧ minute ≥ 55) ∧ last download date differs from today.
`last_download_date` is `none` for Python's `None` (and `None != date` is
`True`). -/
def should_update_gtfs (last_download_date : Option Int) (now : Now) : Bool :=
  let is_friday := now.weekday == 4
  let is_after_2355 := (now.hour == 23) && decide (55 ≤ now.minute)
  let not_downloaded_today := decide (last_download_date ≠ some now.date)
  is_friday && is_after_2355 && not_downloaded_today

/-! ### Concrete fixtures used by witnesses and counterexamples -/

/-- A row for stop 12422 with arrival offset 90000 s (01:00 of the next day)
and every display field absent. -/
def row90000 : Row :=
  { stop_id := "12422", arrival_time := .num 90000, stop_headsign := none,
    trip_headsign := none, route_long_name := none, route_short_name := none,
    route_id := none }

/-- The same row with arrival offset 7230 s (120 minutes and 30 seconds). -/
def row7230 : Row :=
  { row90000 with arrival_time := .num 7230 }

/-- The same row with a negative arrival offset. -/
def rowNeg : Row :=
  { row90000 with arrival_time := .num (-100) }

/-- The record produced by `row90000` when queried at 23:30 of the base
date (absolute second 84600 of day 0). -/
def entry90 : ArrivalEntry :=
  { line := "Linea", direzione := "Destinazione non disponibile",
    stop_id := "12422", destination := "Destinazione non disponibile",
    minutes := 90 }

/-- The record produced by `row7230` when queried at absolute second 0. -/
def entry120 : ArrivalEntry :=
  { entry90 with minutes := 120 }

/-- A Friday 23:55 instant (inside the refresh window). -/
def nowFri55 : Now :=
  { weekday := 4, hour := 23, minute := 55, date := 0 }

/-- A Thursday 23:59 instant (outside the refresh window). -/
def nowThu : Now :=
  { weekday := 3, hour := 23, minute := 59, date := 0 }

/-! ### Helper lemmas -/

/-- An arrival offset the query must drop: its parse raises, or it parses to
a negative number of seconds. -/
def badOffset (t : GtfsTime) : Prop :=
  gtfsTotalSeconds t = none ∨ ∃ total, gtfsTotalSeconds t = some total ∧ total < 0

theorem sortByMinutes_sorted (l : List ArrivalEntry) :
    List.Sorted minRel (sortByMinutes l) :=
  List.sorted_insertionSort minRel l

theorem sortByMinutes_perm (l : List ArrivalEntry) :
    (sortByMinutes l).Perm l :=
  List.perm_insertionSort minRel l

theorem mem_of_mem_take_sort {e : ArrivalEntry} {l : List ArrivalEntry}
    (h : e ∈ (sortByMinutes l).take 2) : e ∈ l :=
  (sortByMinutes_perm l).mem_iff.mp ((List.take_sublist 2 _).subset h)

theorem get_next_arrivals_eq (df : List Row) (sm : List (String × Option String))
    (now : Int) :
    get_next_arrivals df sm now = processEntries (df.filterMap (rowEntry sm now)) := by
  cases df with
  | nil => rfl
  | cons a l => rfl

/-- Everything `rowEntry` lets through satisfies the label formulas and the
minute bounds. -/
theorem rowEntry_some {sm : List (String × Option String)} {now : Int} {r : Row}
    {e : ArrivalEntry} (h : rowEntry sm now r = some e) :
    e.destination = pyOr (get_str r.stop_headsign) (pyOr (get_str r.trip_headsign)
      (pyOr (get_str r.route_long_name) ("Destinazione non disponibile"))) ∧
    e.line = pyOr (get_str r.route_short_name)
      (pyOr (get_str r.route_id) ("Linea")) ∧
    0 ≤ e.minutes ∧ e.minutes ≤ 120 := by
  simp only [rowEntry] at h
  split at h
  · exact absurd h (by simp)
  · rename_i arrival heq
    split at h
    · exact absurd h (by simp)
    · rename_i hpast
      split at h
      · exact absurd h (by simp)
      · rename_i hmin
        injection h with h
        subst h
        refine ⟨rfl, rfl, ?_, ?_⟩ <;> (dsimp only; omega)

/-- A row whose parse fails, or whose parsed instant is in the past or whose
floored minute distance exceeds 120, produces no entry. -/
theorem rowEntry_discard {sm : List (String × Option String)} {now : Int} {r : Row}
    {arrival : Int}
    (hp : parse_gtfs_time r.arrival_time (now / 86400) = some arrival)
    (h : arrival < now ∨ 120 < (arrival - now) / 60) :
    rowEntry sm now r = none := by
  simp only [rowEntry, hp]
  rcases h with h1 | h2
  · rw [if_pos h1]
  · by_cases hpast : arrival < now
    · rw [if_pos hpast]
    · rw [if_neg hpast, if_pos h2]

theorem rowEntry_of_badOffset {sm : List (String × Option String)} {now : Int}
    {r : Row} (h : badOffset r.arrival_time) :
    rowEntry sm now r = none := by
  rcases h with hm | ⟨total, ht, hneg⟩
  · simp only [rowEntry, parse_gtfs_time, hm]
  · simp only [rowEntry, parse_gtfs_time, ht]
    rw [if_pos (by omega)]

/-- Invariant of the `arrivals_by_line` dict during the row loop: its keys
are distinct, every bucket entry carries its bucket's key, and every bucket
entry satisfies `P`. -/
def goodGroups (P : ArrivalEntry → Prop)
    (gs : List ((String × String) × List ArrivalEntry)) : Prop :=
  (gs.map Prod.fst).Nodup ∧ ∀ g ∈ gs, ∀ e ∈ g.2, entryKey e = g.1 ∧ P e

theorem mem_keys_insertGroup (gs : List ((String × String) × List ArrivalEntry))
    (e : ArrivalEntry) (k : String × String) :
    k ∈ (insertGroup gs e).map Prod.fst ↔ (k ∈ gs.map Prod.fst ∨ k = entryKey e) := by
  induction gs with
  | nil => simp [insertGroup]
  | cons g rest ih =>
    obtain ⟨gk, ges⟩ := g
    by_cases hk : gk = entryKey e
    · rw [insertGroup, if_pos hk]
      subst hk
      simp
      tauto
    · rw [insertGroup, if_neg hk]
      simp [ih]
      tauto

theorem goodGroups_insertGroup (P : ArrivalEntry → Prop)
    (gs : List ((String × String) × List ArrivalEntry)) (e : ArrivalEntry)
    (hg : goodGroups P gs) (he : P e) : goodGroups P (insertGroup gs e) := by
  induction gs with
  | nil =>
    refine ⟨by simp [insertGroup], ?_⟩
    intro g hgmem e2 he2
    simp only [insertGroup, List.mem_singleton] at hgmem
    subst hgmem
    simp only [List.mem_singleton] at he2
    subst he2
    exact ⟨rfl, he⟩
  | cons g0 rest ih =>
    obtain ⟨gk, ges⟩ := g0
    obtain ⟨hnd, hmem⟩ := hg
    rw [List.map_cons, List.nodup_cons] at hnd
    have hgrest : goodGroups P rest :=
      ⟨hnd.2, fun g hg2 e2 he2 => hmem g (by simp [hg2]) e2 he2⟩
    by_cases hk : gk = entryKey e
    · rw [insertGroup, if_pos hk]
      refine ⟨by simpa using hnd, ?_⟩
      intro g hgmem e2 he2
      rcases List.mem_cons.mp hgmem with hghead | hgtail
      · subst hghead
        rcases List.mem_append.mp he2 with h1 | h1
        · exact hmem (gk, ges) (by simp) e2 h1
        · simp only [List.mem_singleton] at h1
          subst h1
          exact ⟨hk.symm, he⟩
      · exact hmem g (by simp [hgtail]) e2 he2
    · rw [insertGroup, if_neg hk]
      have hrest := ih hgrest
      refine ⟨?_, ?_⟩
      · rw [List.map_cons, List.nodup_cons]
        refine ⟨?_, hrest.1⟩
        rw [mem_keys_insertGroup]
        rintro (h1 | h1)
        · exact hnd.1 h1
        · exact hk h1
      · intro g hgmem e2 he2
        rcases List.mem_cons.mp hgmem with hghead | hgtail
        · subst hghead
          exact hmem (gk, ges) (by simp) e2 he2
        · exact hrest.2 g hgtail e2 he2

theorem goodGroups_foldl (P : ArrivalEntry → Prop) (entries : List ArrivalEntry)
    (gs : List ((String × String) × List ArrivalEntry))
    (hg : goodGroups P gs) (he : ∀ e ∈ entries, P e) :
    goodGroups P (entries.foldl insertGroup gs) := by
  induction entries generalizing gs with
  | nil => exact hg
  | cons a l ih =>
    exact ih (insertGroup gs a)
      (goodGroups_insertGroup P gs a hg (he a (by simp)))
      (fun e hme => he e (by simp [hme]))

theorem mem_flatMap_groups {gs : List ((String × String) × List ArrivalEntry)}
    {e : ArrivalEntry}
    (h : e ∈ gs.flatMap (fun g => (sortByMinutes g.2).take 2)) :
    ∃ g ∈ gs, e ∈ g.2 := by
  rw [List.mem_flatMap] at h
  obtain ⟨g, hg, hmem⟩ := h
  exact ⟨g, hg, mem_of_mem_take_sort hmem⟩

/-- Every entry of the query result comes from one of the folded entries. -/
theorem processEntries_prop (P : ArrivalEntry → Prop) (entries : List ArrivalEntry)
    (he : ∀ e ∈ entries, P e) :
    ∀ e ∈ processEntries entries, P e := by
  intro e hm
  have hm2 : e ∈ (entries.foldl insertGroup []).flatMap
      (fun g => (sortByMinutes g.2).take 2) :=
    (sortByMinutes_perm _).mem_iff.mp hm
  obtain ⟨g, hg, hmem⟩ := mem_flatMap_groups hm2
  have hgg := goodGroups_foldl P entries [] ⟨List.nodup_nil, by simp⟩ he
  exact (hgg.2 g hg e hmem).2

theorem countP_flatMap_zero {k : String × String}
    {gs : List ((String × String) × List ArrivalEntry)}
    (hk : k ∉ gs.map Prod.fst)
    (hkey : ∀ g ∈ gs, ∀ e ∈ g.2, entryKey e = g.1) :
    (gs.flatMap (fun g => (sortByMinutes g.2).take 2)).countP
      (fun e => decide (entryKey e = k)) = 0 := by
  rw [List.countP_eq_zero]
  intro e hme
  obtain ⟨g, hg, hmem⟩ := mem_flatMap_groups hme
  have hek := hkey g hg e hmem
  simp only [hek, decide_eq_true_eq]
  intro hgk
  subst hgk
  exact hk (List.mem_map_of_mem Prod.fst hg)

theorem countP_flatMap_le_two (k : String × String)
    (gs : List ((String × String) × List ArrivalEntry))
    (hnd : (gs.map Prod.fst).Nodup)
    (hkey : ∀ g ∈ gs, ∀ e ∈ g.2, entryKey e = g.1) :
    (gs.flatMap (fun g => (sortByMinutes g.2).take 2)).countP
      (fun e => decide (entryKey e = k)) ≤ 2 := by
  induction gs with
  | nil => simp
  | cons g rest ih =>
    rw [List.flatMap_cons, List.countP_append]
    rw [List.map_cons, List.nodup_cons] at hnd
    have hkrest : ∀ g2 ∈ rest, ∀ e ∈ g2.2, entryKey e = g2.1 :=
      fun g2 hg2 e he2 => hkey g2 (by simp [hg2]) e he2
    by_cases hk : g.1 = k
    · subst hk
      have hzero := countP_flatMap_zero hnd.1 hkrest
      have hle : ((sortByMinutes g.2).take 2).countP
          (fun e => decide (entryKey e = g.1)) ≤ 2 :=
        le_trans (List.countP_le_length _) (List.length_take_le 2 _)
      omega
    · have hzero : ((sortByMinutes g.2).take 2).countP
          (fun e => decide (entryKey e = k)) = 0 := by
        rw [List.countP_eq_zero]
        intro e hme
        have := hkey g (by simp) e (mem_of_mem_take_sort hme)
        simp only [this, decide_eq_true_eq]
        exact hk
      have := ih hnd.2 hkrest
      omega

/-! ### Claim theorems -/

/-- Claim C1, counterexample: with a previously cached bundle on disk, a
refresh whose download succeeds but whose archive is malformed does not leave
the previous cache in use — the cache directory was already removed and
recreated empty before the archive was opened, so the old bundle is gone. -/
theorem C1_counterexample :
    (download_gtfs_data (some [("stops.txt")]) (some .malformed)).1 ≠
      some [("stops.txt")] ∧
    (download_gtfs_data (some [("stops.txt")]) (some .malformed)).2 =
      some .corruptArchiveError := by
  decide

/-- Claim C1, amended: a refresh that fails at the download stage (network or
HTTP error) leaves the cached bundle untouched, but the replacement is not
atomic: the cache directory is deleted and recreated before the archive is
validated, so a refresh failing on a malformed archive leaves an emptied
cache, and a successful refresh installs the new files. -/
theorem C1_refresh_cache_effect (cache : Option (List String)) (files : List String) :
    download_gtfs_data cache none = (cache, some .downloadError) ∧
    download_gtfs_data cache (some .malformed) = (some [], some .corruptArchiveError) ∧
    download_gtfs_data cache (some (.valid files)) = (some files, none) :=
  ⟨rfl, rfl, rfl⟩

/-- Claim C2: for an arrival offset `o ≥ 86400`, the parsed instant is
midnight of the base date plus `o / 86400` days plus `o % 86400` seconds; its
calendar day is `base + o / 86400`, strictly later than the day `base` that
offset `o % 86400` alone would give; and the concrete scenario: a row with
offset 90000 queried at 23:30 of day 0 (second 84600) yields exactly one
record with `minutes_until = 90`. -/
theorem C2_day_overflow (o d : Int) (h : 86400 ≤ o) :
    parse_gtfs_time (.num o) d = some (d * 86400 + o / 86400 * 86400 + o % 86400) ∧
    (d * 86400 + o / 86400 * 86400 + o % 86400) / 86400 = d + o / 86400 ∧
    d + 1 ≤ d + o / 86400 ∧
    (d * 86400 + o % 86400) / 86400 = d ∧
    get_next_arrivals [row90000] [] 84600 = [entry90] := by
  refine ⟨rfl, ?_, ?_, ?_, by decide⟩ <;> omega

/-- Witness for C2 at `o = 90000`, `d = 0`. -/
theorem C2_day_overflow_witness :
    parse_gtfs_time (.num 90000) 0 =
      some (0 * 86400 + 90000 / 86400 * 86400 + 90000 % 86400) ∧
    ((0 : Int) * 86400 + 90000 / 86400 * 86400 + 90000 % 86400) / 86400 =
      0 + 90000 / 86400 ∧
    (0 : Int) + 1 ≤ 0 + 90000 / 86400 ∧
    ((0 : Int) * 86400 + 90000 % 86400) / 86400 = 0 ∧
    get_next_arrivals [row90000] [] 84600 = [entry90] :=
  C2_day_overflow 90000 0 (by decide)

/-- Claim C3: a row whose arrival offset fails to parse, or parses to a
negative number of seconds, produces no record — removing it from the
dataframe leaves the query result unchanged, and the query itself never
fails (it is a total function). -/
theorem C3_bad_offset_discarded (sm : List (String × Option String)) (now : Int)
    (r : Row) (h : badOffset r.arrival_time) :
    rowEntry sm now r = none ∧
    ∀ df1 df2 : List Row,
      get_next_arrivals (df1 ++ r :: df2) sm now =
        get_next_arrivals (df1 ++ df2) sm now := by
  have hnone : rowEntry sm now r = none := rowEntry_of_badOffset h
  refine ⟨hnone, fun df1 df2 => ?_⟩
  rw [get_next_arrivals_eq, get_next_arrivals_eq]
  rw [List.filterMap_append, List.filterMap_append,
    List.filterMap_cons_none hnone]

/-- Witness for C3 at the negative-offset row, `now` = second 84600. -/
theorem C3_bad_offset_discarded_witness :
    badOffset rowNeg.arrival_time ∧
    (rowEntry [] 84600 rowNeg = none ∧
      ∀ df1 df2 : List Row,
        get_next_arrivals (df1 ++ rowNeg :: df2) [] 84600 =
          get_next_arrivals (df1 ++ df2) [] 84600) :=
  ⟨Or.inr ⟨-100, rfl, by decide⟩,
    C3_bad_offset_discarded [] 84600 rowNeg (Or.inr ⟨-100, rfl, by decide⟩)⟩

/-- Claim C4: in every query result, at most 2 records share any given
(line, destination) pair, the whole list is sorted ascending by
`minutes_until`, and hence the records of each pair also appear sorted
ascending by `minutes_until`. -/
theorem C4_grouping_cap_and_sort (df : List Row) (sm : List (String × Option String))
    (now : Int) (k : String × String) :
    (get_next_arrivals df sm now).countP (fun e => decide (entryKey e = k)) ≤ 2 ∧
    List.Sorted minRel (get_next_arrivals df sm now) ∧
    List.Sorted minRel
      ((get_next_arrivals df sm now).filter (fun e => decide (entryKey e = k))) := by
  rw [get_next_arrivals_eq]
  have hgg := goodGroups_foldl (fun _ => True)
    (df.filterMap (rowEntry sm now)) [] ⟨List.nodup_nil, by simp⟩ (by simp)
  have hsorted : List.Sorted minRel
      (processEntries (df.filterMap (rowEntry sm now))) :=
    sortByMinutes_sorted _
  refine ⟨?_, hsorted, ?_⟩
  · unfold processEntries
    rw [(sortByMinutes_perm _).countP_eq]
    exact countP_flatMap_le_two k _ hgg.1 (fun g hg e he => (hgg.2 g hg e he).1)
  · exact List.Pairwise.sublist (List.filter_sublist _) hsorted

/-- Claim C5, counterexample: a row whose arrival instant is 7230 seconds
(120 minutes 30 seconds, i.e. more than 120 minutes) after "now" is not
discarded: it is returned with `minutes_until = 120`. -/
theorem C5_counterexample :
    parse_gtfs_time row7230.arrival_time (0 / 86400) = some 7230 ∧
    120 * 60 < 7230 - 0 ∧
    get_next_arrivals [row7230] [] 0 = [entry120] := by
  refine ⟨by decide, by decide, by decide⟩

/-- Claim C5, amended: every returned record has `0 ≤ minutes_until ≤ 120`;
a row is discarded when its instant is strictly before "now" or when its
floored minute distance `(instant - now) / 60` exceeds 120 (instants up to
120 minutes and 59 seconds after "now" survive with `minutes_until = 120`). -/
theorem C5_bounds (df : List Row) (sm : List (String × Option String)) (now : Int)
    (e : ArrivalEntry) (r : Row) (arrival : Int)
    (he : e ∈ get_next_arrivals df sm now)
    (hr : parse_gtfs_time r.arrival_time (now / 86400) = some arrival)
    (hfar : arrival < now ∨ 120 < (arrival - now) / 60) :
    (0 ≤ e.minutes ∧ e.minutes ≤ 120) ∧ rowEntry sm now r = none := by
  rw [get_next_arrivals_eq] at he
  refine ⟨?_, rowEntry_discard hr hfar⟩
  refine processEntries_prop (fun e2 => 0 ≤ e2.minutes ∧ e2.minutes ≤ 120) _ ?_ e he
  intro e2 hme
  obtain ⟨r2, _, hr2⟩ := List.mem_filterMap.mp hme
  exact (rowEntry_some hr2).2.2

/-- Witness for C5 at `entry90` in the scenario query, with the
negative-offset row as the discarded row. -/
theorem C5_bounds_witness :
    (entry90 ∈ get_next_arrivals [row90000] [] 84600 ∧
      parse_gtfs_time rowNeg.arrival_time (84600 / 86400) = some (-100) ∧
      ((-100 : Int) < 84600 ∨ 120 < ((-100 : Int) - 84600) / 60)) ∧
    ((0 ≤ entry90.minutes ∧ entry90.minutes ≤ 120) ∧
      rowEntry [] 84600 rowNeg = none) :=
  ⟨⟨by decide, by decide, by decide⟩,
    C5_bounds [row90000] [] 84600 entry90 rowNeg (-100)
      (by decide) (by decide) (by decide)⟩

/-- Claim C6, counterexample: a row with `stop_headsign`, `trip_headsign` and
`route_long_name` all absent yields the literal destination label
"Destinazione non disponibile", not the claimed literal
"destination unavailable"; likewise the line fallback literal is "Linea", not
"line". -/
theorem C6_counterexample :
    rowEntry [] 84600 row90000 = some entry90 ∧
    row90000.stop_headsign = none ∧ row90000.trip_headsign = none ∧
    row90000.route_long_name = none ∧
    entry90.destination = ("Destinazione non disponibile") ∧
    entry90.destination ≠ ("destination unavailable") ∧
    entry90.line = ("Linea") ∧ entry90.line ≠ ("line") := by
  refine ⟨by decide, rfl, rfl, rfl, rfl, by decide, rfl, by decide⟩

/-- Claim C6, amended: the destination label is resolved in priority order
`stop_headsign` → `trip_headsign` → `route_long_name` → literal
"Destinazione non disponibile", and the line label in priority order
`route_short_name` → `route_id` → literal "Linea" (absent/NaN and empty
cells both count as missing). -/
theorem C6_label_priority (sm : List (String × Option String)) (now : Int)
    (r : Row) (e : ArrivalEntry) (h : rowEntry sm now r = some e) :
    (get_str r.stop_headsign ≠ "" → e.destination = get_str r.stop_headsign) ∧
    (get_str r.stop_headsign = "" → get_str r.trip_headsign ≠ "" →
      e.destination = get_str r.trip_headsign) ∧
    (get_str r.stop_headsign = "" → get_str r.trip_headsign = "" →
      get_str r.route_long_name ≠ "" → e.destination = get_str r.route_long_name) ∧
    (get_str r.stop_headsign = "" → get_str r.trip_headsign = "" →
      get_str r.route_long_name = "" →
      e.destination = ("Destinazione non disponibile")) ∧
    (get_str r.route_short_name ≠ "" → e.line = get_str r.route_short_name) ∧
    (get_str r.route_short_name = "" → get_str r.route_id ≠ "" →
      e.line = get_str r.route_id) ∧
    (get_str r.route_short_name = "" → get_str r.route_id = "" →
      e.line = ("Linea")) := by
  obtain ⟨hd, hl, _, _⟩ := rowEntry_some h
  refine ⟨?_, ?_, ?_, ?_, ?_, ?_, ?_⟩
  · intro h1
    rw [hd]
    simp [pyOr, h1]
  · intro h1 h2
    rw [hd]
    simp [pyOr, h1, h2]
  · intro h1 h2 h3
    rw [hd]
    simp [pyOr, h1, h2, h3]
  · intro h1 h2 h3
    rw [hd]
    simp [pyOr, h1, h2, h3]
  · intro h1
    rw [hl]
    simp [pyOr, h1]
  · intro h1 h2
    rw [hl]
    simp [pyOr, h1, h2]
  · intro h1 h2
    rw [hl]
    simp [pyOr, h1, h2]

/-- Witness for the amended C6 at the all-absent row. -/
theorem C6_label_priority_witness :
    rowEntry [] 84600 row90000 = some entry90 ∧
    ((get_str row90000.stop_headsign ≠ "" →
        entry90.destination = get_str row90000.stop_headsign) ∧
      (get_str row90000.stop_headsign = "" → get_str row90000.trip_headsign ≠ "" →
        entry90.destination = get_str row90000.trip_headsign) ∧
      (get_str row90000.stop_headsign = "" → get_str row90000.trip_headsign = "" →
        get_str row90000.route_long_name ≠ "" →
        entry90.destination = get_str row90000.route_long_name) ∧
      (get_str row90000.stop_headsign = "" → get_str row90000.trip_headsign = "" →
        get_str row90000.route_long_name = "" →
        entry90.destination = ("Destinazione non disponibile")) ∧
      (get_str row90000.route_short_name ≠ "" →
        entry90.line = get_str row90000.route_short_name) ∧
      (get_str row90000.route_short_name = "" → get_str row90000.route_id ≠ "" →
        entry90.line = get_str row90000.route_id) ∧
      (get_str row90000.route_short_name = "" → get_str row90000.route_id = "" →
        entry90.line = ("Linea"))) :=
  ⟨by decide, C6_label_priority [] 84600 row90000 entry90 (by decide)⟩

/-- The refresh decision is true exactly on a Friday at 23:55 or later when
the last download date differs from today. -/
theorem should_update_iff (last : Option Int) (now : Now) :
    should_update_gtfs last now = true ↔
      (now.weekday = 4 ∧ now.hour = 23 ∧ 55 ≤ now.minute ∧
        last ≠ some now.date) := by
  simp [should_update_gtfs, and_assoc]

/-- Claim C7: the refresh decision is false outside the weekly window
(Friday, hour 23, minute ≥ 55) regardless of the last refresh date, and
false inside the window when the last refresh date equals today. -/
theorem C7_refresh_decision (last : Option Int) (now : Now) :
    (¬(now.weekday = 4 ∧ now.hour = 23 ∧ 55 ≤ now.minute) →
      should_update_gtfs last now = false) ∧
    (last = some now.date → should_update_gtfs last now = false) := by
  constructor
  · intro h
    rw [Bool.eq_false_iff]
    intro htrue
    rw [should_update_iff] at htrue
    exact h ⟨htrue.1, htrue.2.1, htrue.2.2.1⟩
  · intro h
    rw [Bool.eq_false_iff]
    intro htrue
    rw [should_update_iff] at htrue
    exact htrue.2.2.2 h

/-- Witness for C7: a Thursday night instant outside the window, and a
Friday 23:55 instant with today's date already recorded. -/
theorem C7_refresh_decision_witness :
    should_update_gtfs (some 0) nowThu = false ∧
    should_update_gtfs (some 0) nowFri55 = false :=
  ⟨(C7_refresh_decision (some 0) nowThu).1 (by decide),
   (C7_refresh_decision (some 0) nowFri55).2 (by decide)⟩

/-- Claim C8: if the grep filter over a non-empty `stop_times.txt` matches
zero lines, the file content is left unchanged; and whenever the filter does
rewrite the file, the rewritten file starts with the original header line. -/
theorem C8_filter_preserves (content ids : List String) (p : String → Bool)
    (hne : content ≠ []) :
    ((content.filter p).length = 0 →
      filter_stop_times_file (some content) ids p = some content) ∧
    (∀ out, filter_stop_times_file (some content) ids p = some out →
      out.head? = content.head?) := by
  cases content with
  | nil => exact absurd rfl hne
  | cons h t =>
    constructor
    · intro h0
      simp only [filter_stop_times_file]
      split_ifs with h1
      · rfl
      · rfl
    · intro out hout
      simp only [filter_stop_times_file, List.head?_cons] at hout
      split_ifs at hout with h1 h2
      · injection hout with hout
        rw [← hout]
      · injection hout with hout
        rw [← hout]
      · injection hout with hout
        rw [← hout]
        rfl

/-- Witness for C8: a two-line file and a pattern matching nothing. -/
theorem C8_filter_preserves_witness :
    (["hdr", "a"] : List String) ≠ [] ∧
    filter_stop_times_file (some ["hdr", "a"]) ["12422"] (fun _ => false) =
      some ["hdr", "a"] :=
  ⟨by decide,
    (C8_filter_preserves ["hdr", "a"] ["12422"] (fun _ => false) (by decide)).1 rfl⟩

/-- Claim C9: the arrival query is a pure, deterministic function of the
dataframe, the stop map and the "now" instant — equal inputs give the
identical list. -/
theorem C9_query_deterministic (df1 df2 : List Row)
    (sm1 sm2 : List (String × Option String)) (now1 now2 : Int)
    (hdf : df1 = df2) (hsm : sm1 = sm2) (hnow : now1 = now2) :
    get_next_arrivals df1 sm1 now1 = get_next_arrivals df2 sm2 now2 := by
  subst hdf
  subst hsm
  subst hnow
  rfl

/-- Witness for C9 on the scenario query. -/
theorem C9_query_deterministic_witness :
    ([row90000] : List Row) = [row90000] ∧
    get_next_arrivals [row90000] [] 84600 = get_next_arrivals [row90000] [] 84600 :=
  ⟨rfl, C9_query_deterministic [row90000] [row90000] [] [] 84600 84600 rfl rfl rfl⟩

/-- Claim C10: with an unknown last refresh date (`none`, as set at startup
when a pre-existing cache is found), the decision returns true at every
instant inside the weekly window. -/
theorem C10_none_triggers (now : Now) (h4 : now.weekday = 4) (h23 : now.hour = 23)
    (h55 : 55 ≤ now.minute) :
    should_update_gtfs none now = true := by
  rw [should_update_iff]
  exact ⟨h4, h23, h55, by simp⟩

/-- Witness for C10 at Friday 23:55. -/
theorem C10_none_triggers_witness :
    nowFri55.weekday = 4 ∧ nowFri55.hour = 23 ∧ 55 ≤ nowFri55.minute ∧
    should_update_gtfs none nowFri55 = true :=
  ⟨rfl, rfl, by decide, C10_none_triggers nowFri55 rfl rfl (by decide)⟩

end AtmDisplay
